import Mathlib

/-
Verification development for the CustomEventSystem repository: a shallow
embedding, in Lean 4, of the event bus (EventDispatcher), the stage
abstraction (IProcessor), the pipeline stages (VideoProcessor, Defogger,
InferenceEngine), the command-line front end (CommandLineArgs and main),
and the dark-channel-prior defogging algorithm, together with theorems
about their behaviour.

Conventions of the embedding:
- Frames (cv::Mat) are opaque to the bus and the stage machinery; at that
  level they are modelled as natural-number identifiers, and a payload is
  the pair (original frame, derived frame) exactly as in the code.
- Handlers (std::function values) are opaque; the handler table maps each
  event type to an optional handler identifier, and dispatching produces
  the trace of (handler id, event) invocations in order.
- The condition variable of the dispatcher is modelled by a `signaled`
  flag: notify_one / notify_all set it, and a blocked waiter can only wake
  once it is set (or on a later notification).
- The numeric defogging pipeline is embedded over ℚ: CV_32F float
  arithmetic is modelled by exact rational arithmetic, and the final
  convertTo back to 8-bit by round-and-clamp saturation.
-/

namespace CES

/-- The event type tags of the system, from `Event::Type` in
event_dispatcher.h: InitialState, FrameCaptureReady, FrameDefoggerReady,
FrameDetectionReady. -/
inductive EventType where
  | InitialState
  | FrameCaptureReady
  | FrameDefoggerReady
  | FrameDetectionReady
deriving DecidableEq, Repr

/-- A frame (cv::Mat) is opaque to the bus and stage machinery; modelled
as an identifier. -/
abbrev Frame : Type := Nat

/-- The payload carried by an event: std::pair of cv::Mat
(original frame, derived frame). -/
abbrev Payload : Type := Frame × Frame

/-- `Event` from event_dispatcher.h: a type tag together with the pair of
frames. -/
structure Event where
  type : EventType
  data : Payload
deriving DecidableEq, Repr

/-- A handler (std::function) is opaque; it is identified by a number in
the handler table. -/
abbrev HandlerId : Type := Nat

/-- The mutable state of `EventDispatcher`: the running flag, the FIFO
event queue, the handler table, and the condition-variable notification
state (`signaled` is set by notify_one / notify_all and cleared when a
waiter consumes the wakeup). -/
structure DispatcherState where
  running : Bool
  eventQueue : List Event
  handlerContainer : EventType → Option HandlerId
  signaled : Bool

/-- `EventDispatcher::EventDispatcher()`: running starts true, the queue
empty, no handlers registered. -/
def EventDispatcher.init : DispatcherState :=
  { running := true, eventQueue := [], handlerContainer := fun _ => none, signaled := false }

/-- `EventDispatcher::postEvent` (part_000 lines 12-18): push the event at
the back of the queue and notify_one on the queue condition. -/
def EventDispatcher.postEvent (s : DispatcherState) (e : Event) : DispatcherState :=
  { s with eventQueue := s.eventQueue ++ [e], signaled := true }

/-- `EventDispatcher::registerHandler` (part_000 lines 20-23):
`handlerContainer[type] = handler` — replaces any previous handler for the
type. -/
def EventDispatcher.registerHandler (s : DispatcherState) (t : EventType) (h : HandlerId) :
    DispatcherState :=
  { s with handlerContainer := fun t' => if t' = t then some h else s.handlerContainer t' }

/-- `EventDispatcher::shutdownEventloop` (part_000 lines 47-51): clears
the handler table and stores false into the running flag.  Note that the
source performs no notification on the queue condition here; only the
destructor (lines 7-10) calls notify_all. -/
def EventDispatcher.shutdownEventloop (s : DispatcherState) : DispatcherState :=
  { s with handlerContainer := fun _ => none, running := false }

/-- `EventDispatcher::~EventDispatcher` (part_000 lines 7-10): sets
running false and calls notify_all. -/
def EventDispatcher.destructor (s : DispatcherState) : DispatcherState :=
  { s with running := false, signaled := true }

/-- The inner drain loop of `EventDispatcher::startEventloop` (part_000
lines 32-43): while the queue is non-empty, pop the front event, look its
type up in the handler table; if a handler is registered invoke it
(recorded in the returned trace, in invocation order), otherwise print
"No handler registered for this event type!" (counted as a diagnostic).
Returns (invocation trace, number of diagnostics). -/
def drainEvents (handlers : EventType → Option HandlerId) :
    List Event → List (HandlerId × Event) × Nat
  | [] => ([], 0)
  | e :: rest =>
    match handlers e.type with
    | some hid =>
      let p := drainEvents handlers rest
      ((hid, e) :: p.1, p.2)
    | none =>
      let p := drainEvents handlers rest
      (p.1, p.2 + 1)

/-- One iteration of the per-stage processing loop shared (textually) by
`Defogger::processEvents` (defogger.cpp lines 12-33) and
`InferenceEngine::processEvents` (inference_engine.cpp lines 26-81): the
worker wakes from `queueCondition.wait` once the queue is non-empty or
running is false; it then breaks immediately if running is false,
otherwise pops the front payload, applies the stage transform to it and
posts a single event of the stage's output type.  Returns (events posted
this iteration, queue afterwards, whether the loop exited).  The branch
for running = true with an empty queue is unreachable under the wait
predicate and is modelled as an exit. -/
def stageIteration (outType : EventType) (transform : Payload → Payload)
    (running : Bool) (q : List Payload) : List Event × List Payload × Bool :=
  if running = false then ([], q, true)
  else
    match q with
    | [] => ([], q, true)
    | p :: rest => ([⟨outType, transform p⟩], rest, false)

/-- `Defogger::getAccessibleType` (defogger.cpp lines 35-38). -/
def Defogger.getAccessibleType : EventType := EventType.FrameCaptureReady

/-- `InferenceEngine::getAccessibleType` (inference_engine.cpp
lines 83-86). -/
def InferenceEngine.getAccessibleType : EventType := EventType.FrameDefoggerReady

/-- `VideoProcessor::getAccessibleType` (part_002 lines 39-42): the video
source declares `InitialState` as its accepted type. -/
def VideoProcessor.getAccessibleType : EventType := EventType.InitialState

/-- One iteration of `Defogger::processEvents` (defogger.cpp lines 12-33):
pops (first, second), defogs the second frame (the defog computation on an
opaque frame is abstracted by `defogFn`) and posts exactly one
FrameDefoggerReady event carrying (first, defogged second). -/
def Defogger.iteration (defogFn : Frame → Frame) (running : Bool) (q : List Payload) :
    List Event × List Payload × Bool :=
  stageIteration EventType.FrameDefoggerReady (fun p => (p.1, defogFn p.2)) running q

/-- One iteration of `InferenceEngine::processEvents` (inference_engine.cpp
lines 26-81): pops (first, second), runs the network and draws the kept
detections onto the second frame in place (the inference-and-draw step on
an opaque frame is abstracted by `drawFn`; with zero kept detections it is
the identity) and posts exactly one FrameDetectionReady event carrying the
frames pair. -/
def InferenceEngine.iteration (drawFn : Frame → Frame) (running : Bool) (q : List Payload) :
    List Event × List Payload × Bool :=
  stageIteration EventType.FrameDetectionReady (fun p => (p.1, drawFn p.2)) running q

/-- `IProcessor::handleEvent` (iprocessor.cpp, part of common sources,
lines 125-136): if the event's type is InitialState, return immediately;
otherwise, if it equals the stage's accessible type, push the payload at
the back of the frame queue (and notify one waiter).  Returns the frame
queue afterwards. -/
def IProcessor.handleEvent (accessibleType : EventType) (frameQueue : List Payload)
    (e : Event) : List Payload :=
  if e.type = EventType.InitialState then frameQueue
  else if e.type = accessibleType then frameQueue ++ [e.data]
  else frameQueue

/-- One detection row of the YOLO output processed by
`InferenceEngine::processEvents` (inference_engine.cpp lines 48-75): the
first four entries are the box geometry, the entries from index 5 on are
the per-class probabilities. -/
structure DetRow where
  x : ℚ
  y : ℚ
  w : ℚ
  h : ℚ
  probs : List ℚ
deriving DecidableEq, Repr

/-- The confidence the code extracts from a detection row
(inference_engine.cpp lines 54-56): the value at the index of the maximal
class probability, i.e. the maximum of the probabilities. -/
def rowConfidence (row : DetRow) : ℚ :=
  row.probs.foldl max (row.probs.headD 0)

/-- The detections the code keeps (inference_engine.cpp line 58:
`if (confidence > confidenceThreshold)`): those whose confidence is
STRICTLY greater than the threshold; only for these is the box drawn and
recorded. -/
def keptDetections (confidenceThreshold : ℚ) (rows : List DetRow) : List DetRow :=
  rows.filter (fun r => confidenceThreshold < rowConfidence r)

end CES

namespace CES

/- Command-line front end.  Strings are modelled as lists of characters. -/

/-- `arg.find(':')` / substr split of `CommandLineArgs::parseArguments`
(part_001 lines 78-88): split an argument at its first colon into
(key, value); none when the argument has no colon (such arguments are
skipped). -/
def splitAtColon : List Char → Option (List Char × List Char)
  | [] => none
  | c :: rest =>
    if c = ':' then some ([], rest)
    else
      match splitAtColon rest with
      | some (k, v) => some (c :: k, v)
      | none => none

/-- Lookup in the args map built by `CommandLineArgs::parseArguments`
(part_001 lines 79-88): arguments are inserted into an unordered_map in
order, so for a duplicated key the last occurrence wins. -/
def argLookup (argv : List (List Char)) (key : List Char) : Option (List Char) :=
  (argv.filterMap splitAtColon).foldl
    (fun acc kv => if kv.1 = key then some kv.2 else acc) none

/-- The fields of `CommandLineArgs` (commandline_args.h): modelPath and
videoPath default to the empty string, confidenceThreshold defaults to
0.3. -/
structure CommandLineArgs where
  modelPath : List Char
  videoPath : List Char
  confidenceThreshold : ℚ
deriving DecidableEq, Repr

/-- `CommandLineArgs::parseArguments` (part_001 lines 78-106),
parameterised by the external `std::stod`: `stod s = some x` models a
successful parse and `none` models a thrown invalid_argument.  On a
failed threshold parse the catch block falls back to 0.3; an absent key
leaves the field at its default. -/
def parseArguments (stod : List Char → Option ℚ) (argv : List (List Char)) :
    CommandLineArgs :=
  let modelPath := (argLookup argv ("--modelPath".toList)).getD []
  let videoPath := (argLookup argv ("--videoPath".toList)).getD []
  let confidenceThreshold :=
    match argLookup argv ("--threshold".toList) with
    | none => (3 : ℚ) / 10
    | some v =>
      match stod v with
      | some x => x
      | none => (3 : ℚ) / 10
  ⟨modelPath, videoPath, confidenceThreshold⟩

/-- The whitespace class of ECMAScript `\s` restricted to ASCII, as used
by the URL regex of `CommandLineArgs::isValidUrl`. -/
def isWsChar (c : Char) : Bool :=
  c = ' ' || c = '\t' || c = '\n' || c = '\x0b' || c = '\x0c' || c = '\r'

/-- Strips a scheme prefix "http://", "https://" or "ftp://" of the regex
alternation `(https?|ftp)://`; none when the string starts with no such
scheme. -/
def stripScheme (url : List Char) : Option (List Char) :=
  if ("http://".toList).isPrefixOf url then some (url.drop 7)
  else if ("https://".toList).isPrefixOf url then some (url.drop 8)
  else if ("ftp://".toList).isPrefixOf url then some (url.drop 6)
  else none

/-- `CommandLineArgs::isValidUrl` (part_001 lines 123-126): full match of
the std::regex pattern (scheme)://[^\s/$.?#].[^\s]*  — after the scheme
one character that is neither whitespace nor one of / $ . ? #, then one
arbitrary non-line-terminator character, then any number of
non-whitespace characters. -/
def isValidUrl (url : List Char) : Bool :=
  match stripScheme url with
  | none => false
  | some rest =>
    match rest with
    | c1 :: c2 :: tail =>
      !isWsChar c1 && !(c1 = '/' || c1 = '$' || c1 = '.' || c1 = '?' || c1 = '#') &&
        !(c2 = '\n' || c2 = '\r') && tail.all (fun c => !isWsChar c)
    | _ => false

/-- `CommandLineArgs::validatePath` (part_001 lines 108-121),
parameterised by the external filesystem query `std::filesystem::exists`:
the path is valid when it is a valid URL or an existing file. -/
def validatePath (fileExists : List Char → Bool) (path : List Char) : Bool :=
  isValidUrl path || fileExists path

/-- `CommandLineArgs::validateArguments` (part_001 lines 70-72): both the
model path and the video path must validate. -/
def validateArguments (fileExists : List Char → Bool) (c : CommandLineArgs) : Bool :=
  validatePath fileExists c.modelPath && validatePath fileExists c.videoPath

/- ------------------------------------------------------------------ -/
/- The dark-channel-prior defogging pipeline (defogger.cpp), embedded   -/
/- over exact rational arithmetic.                                      -/
/- ------------------------------------------------------------------ -/

/-- A single-channel CV_32F image: a total pixel function; an actual
h-by-w frame is the restriction to row indices below h and column indices
below w, and every operation below only ever reads pixels inside that
range (after border extension). -/
abbrev Img1 : Type := ℕ → ℕ → ℚ

/-- A three-channel image; a pixel is the (c0, c1, c2) = (B, G, R)
triple. -/
abbrev Img3 : Type := ℕ → ℕ → ℚ × ℚ × ℚ

/-- OpenCV BORDER_REFLECT_101 index extension (gfedcb|abcdefgh|gfedcba),
the default border of cv::boxFilter: maps an arbitrary integer
coordinate into the valid range 0..n-1 by reflection without repeating
the edge pixel. -/
def reflect101 (n : ℕ) (t : ℤ) : ℕ :=
  if n ≤ 1 then 0
  else
    let m := t % (2 * ((n : ℤ) - 1))
    if m < (n : ℤ) then m.toNat else (2 * ((n : ℤ) - 1) - m).toNat

/-- `cv::boxFilter(src, dst, CV_32F, Size(k, k))` as called from
`Defogger::guidedfilter` (defogger.cpp lines 111-129): the normalized
mean over a k-by-k window anchored at the kernel centre (k / 2, k / 2),
with BORDER_REFLECT_101 extension at the image border. -/
def boxFilter (h w k : ℕ) (img : Img1) : Img1 :=
  fun i j =>
    (∑ d ∈ Finset.range k, ∑ e ∈ Finset.range k,
        img (reflect101 h ((i : ℤ) + d - (k / 2 : ℕ)))
          (reflect101 w ((j : ℤ) + e - (k / 2 : ℕ)))) / ((k : ℚ) * k)

/-- Clips an integer coordinate to a valid index below n, none when it
falls outside the image. -/
def clipIdx (n : ℕ) (t : ℤ) : Option ℕ :=
  if 0 ≤ t ∧ t < (n : ℤ) then some t.toNat else none

/-- The pixel values inside the k-by-k erosion window centred like the
MORPH_RECT kernel of `Defogger::darkChannel`, restricted to the image
(cv::erode uses BORDER_CONSTANT with +infinity for erosion, so
out-of-image positions contribute nothing to the minimum). -/
def windowVals (h w k : ℕ) (img : Img1) (i j : ℕ) : List ℚ :=
  (List.range k).flatMap (fun (d : ℕ) =>
    (List.range k).filterMap (fun (e : ℕ) =>
      match clipIdx h ((i : ℤ) + (d : ℤ) - (k / 2 : ℕ)),
          clipIdx w ((j : ℤ) + (e : ℤ) - (k / 2 : ℕ)) with
      | some a, some b => some (img a b)
      | _, _ => none))

/-- `cv::erode` with a k-by-k MORPH_RECT structuring element, as called
from `Defogger::darkChannel` (defogger.cpp line 71): the minimum over the
window (the anchor pixel always lies in the window, so it seeds the
fold). -/
def erode (h w k : ℕ) (img : Img1) : Img1 :=
  fun i j => (windowVals h w k img i j).foldl min (img i j)

/-- `Defogger::darkChannel` (defogger.cpp lines 63-73): split the
channels, take the pixelwise minimum of the three, erode with a k-by-k
rectangular kernel. -/
def darkChannel (h w : ℕ) (src : Img3) (size : ℕ) : Img1 :=
  erode h w size (fun i j => min (min (src i j).1 (src i j).2.1) (src i j).2.2)

/-- `Defogger::argsort` (defogger.h lines 137-150): the indices
0..n-1 sorted so that the values are ascending.  std::sort with the
strict comparator `pArray[p1] < pArray[p2]` produces an unspecified
sorted permutation; the embedding uses insertion sort, which realises
such a permutation. -/
def argsort (pArray : List ℚ) : List ℕ :=
  List.insertionSort (fun i j => pArray.getD i 0 ≤ pArray.getD j 0)
    (List.range pArray.length)

/-- The row-major flattening `pDark.reshape(1, imgSize)` of a
single-channel h-by-w image (atmLight, defogger.cpp line 80). -/
def flatten1 (h w : ℕ) (img : Img1) : List ℚ :=
  (List.range (h * w)).map (fun t => img (t / w) (t % w))

/-- The row-major flattening `pSource.reshape(3, imgSize)` of a
three-channel h-by-w image (atmLight, defogger.cpp line 81). -/
def flatten3 (h w : ℕ) (img : Img3) : List (ℚ × ℚ × ℚ) :=
  (List.range (h * w)).map (fun t => img (t / w) (t % w))

/-- `Defogger::atmLight` (defogger.cpp lines 75-95): flatten the dark
channel and the source, let numpx = max(imgSize / 1000, 1) (integer
division), argsort the dark values ascending, keep the last numpx indices
(the brightest dark-channel pixels), and average each source channel over
those pixels. -/
def atmLight (h w : ℕ) (src : Img3) (dark : Img1) : ℚ × ℚ × ℚ :=
  let imgSize := h * w
  let tDarkVector := flatten1 h w dark
  let tSrcVector := flatten3 h w src
  let tNumpx := max (imgSize / 1000) 1
  let tIndices := argsort tDarkVector
  let tDstIndices := tIndices.drop (imgSize - tNumpx)
  ((tDstIndices.map (fun t => (tSrcVector.getD t (0, 0, 0)).1)).sum / tNumpx,
   (tDstIndices.map (fun t => (tSrcVector.getD t (0, 0, 0)).2.1)).sum / tNumpx,
   (tDstIndices.map (fun t => (tSrcVector.getD t (0, 0, 0)).2.2)).sum / tNumpx)

/-- `Defogger::transmissionEstimate` (defogger.cpp lines 97-109): divide
each channel by the corresponding component of A, and return
1 - omega * darkChannel of the result. -/
def transmissionEstimate (h w : ℕ) (src : Img3) (A : ℚ × ℚ × ℚ) (size : ℕ)
    (omega : ℚ) : Img1 :=
  let tImgA : Img3 := fun i j =>
    ((src i j).1 / A.1, (src i j).2.1 / A.2.1, (src i j).2.2 / A.2.2)
  fun i j => 1 - omega * darkChannel h w tImgA size i j

/-- `Defogger::guidedfilter` (defogger.cpp lines 111-129): the guided
filter of the transmission estimate with the grayscale source as guide;
box means of guide, signal, product and square, covariance and variance,
the local linear coefficients a and b, their box means, and the filtered
output meanA * guide + meanB. -/
def guidedfilter (h w : ℕ) (pSource pTransmissionEstimated : Img1)
    (pR : ℕ) (pEps : ℚ) : Img1 :=
  let tMeanI := boxFilter h w pR pSource
  let tMeanT := boxFilter h w pR pTransmissionEstimated
  let tMeanIT := boxFilter h w pR (fun i j => pSource i j * pTransmissionEstimated i j)
  let tCovIT : Img1 := fun i j => tMeanIT i j - tMeanI i j * tMeanT i j
  let tMeanII := boxFilter h w pR (fun i j => pSource i j * pSource i j)
  let tVarI : Img1 := fun i j => tMeanII i j - tMeanI i j * tMeanI i j
  let a : Img1 := fun i j => tCovIT i j / (tVarI i j + pEps)
  let b : Img1 := fun i j => tMeanT i j - a i j * tMeanI i j
  let tMeanA := boxFilter h w pR a
  let tMeanB := boxFilter h w pR b
  fun i j => tMeanA i j * pSource i j + tMeanB i j

/-- `cv::cvtColor(src, gray, COLOR_BGR2GRAY)` as called from
`Defogger::transmissionRefine` (defogger.cpp line 133), per the
documented conversion Y = 0.299 R + 0.587 G + 0.114 B on the BGR pixel
(c0, c1, c2) = (B, G, R). -/
def cvtGray (src : Img3) : Img1 :=
  fun i j =>
    (299 : ℚ) / 1000 * (src i j).2.2 + (587 : ℚ) / 1000 * (src i j).2.1 +
      (114 : ℚ) / 1000 * (src i j).1

/-- `Defogger::transmissionRefine` (defogger.cpp lines 131-141): grayscale
of the (un-normalized) source, converted to float and divided by 255,
then the guided filter with radius 60 and eps = 0.0001. -/
def transmissionRefine (h w : ℕ) (src : Img3) (te : Img1) : Img1 :=
  let tGray : Img1 := fun i j => cvtGray src i j / 255
  guidedfilter h w tGray te 60 ((1 : ℚ) / 10000)

/-- `Defogger::recover` (defogger.cpp lines 143-154): clamp the refined
transmission from below by tx, then per channel
(source - A) / transmission + A. -/
def recover (src : Img3) (tr : Img1) (A : ℚ × ℚ × ℚ) (tx : ℚ) : Img3 :=
  fun i j =>
    (((src i j).1 - A.1) / max (tr i j) tx + A.1,
     ((src i j).2.1 - A.2.1) / max (tr i j) tx + A.2.1,
     ((src i j).2.2 - A.2.2) / max (tr i j) tx + A.2.2)

/-- The `convertTo(pOutput, originalType)` step of `Defogger::defog`
(defogger.cpp line 60) for the CV_8U frames the pipeline feeds it:
cv::saturate_cast of a float to an 8-bit value rounds to the nearest
integer and clamps into [0, 255]. -/
def saturate8 (x : ℚ) : ℚ :=
  max 0 (min 255 ((round x : ℤ) : ℚ))

/-- `Defogger::defog` (defogger.cpp lines 45-61) on an h-by-w frame:
normalize to [0, 1], dark channel, atmospheric light, transmission
estimate, guided-filter refinement against the original source, recovery,
rescale by 255 and convert back to the original 8-bit type. -/
def defog (h w : ℕ) (pSource : Img3) (pRectSize : ℕ) (pOmega pNumt : ℚ) : Img3 :=
  let tI : Img3 := fun i j =>
    ((pSource i j).1 / 255, (pSource i j).2.1 / 255, (pSource i j).2.2 / 255)
  let tDark := darkChannel h w tI pRectSize
  let tA := atmLight h w tI tDark
  let tTransmissionEstimated := transmissionEstimate h w tI tA pRectSize pOmega
  let tTransmissionRefined := transmissionRefine h w pSource tTransmissionEstimated
  let tRecovered := recover tI tTransmissionRefined tA pNumt
  fun i j =>
    (saturate8 (255 * (tRecovered i j).1),
     saturate8 (255 * (tRecovered i j).2.1),
     saturate8 (255 * (tRecovered i j).2.2))

/-- A CV_32F value in the NaN-aware embedding of the defog arithmetic:
`fin x` is a finite float value (held exactly as a rational), `nan` a
non-finite one.  The float pipeline produces a non-finite value exactly
when it divides by zero; on the spatially uniform frames considered below
the dividend of such a division is itself zero, so the value is IEEE
0/0 = NaN. -/
inductive FVal where
  | fin (x : ℚ)
  | nan
deriving DecidableEq, Repr

/-- IEEE float subtraction: a non-finite operand propagates. -/
def fsub : FVal → FVal → FVal
  | FVal.fin x, FVal.fin y => FVal.fin (x - y)
  | _, _ => FVal.nan

/-- IEEE float multiplication: a non-finite operand propagates. -/
def fmul : FVal → FVal → FVal
  | FVal.fin x, FVal.fin y => FVal.fin (x * y)
  | _, _ => FVal.nan

/-- IEEE float division: a division by zero is non-finite (on the uniform
frames below it is 0/0 = NaN), and a non-finite operand propagates. -/
def fdiv : FVal → FVal → FVal
  | FVal.fin x, FVal.fin y => if y = 0 then FVal.nan else FVal.fin (x / y)
  | _, _ => FVal.nan

/-- cv::min on CV_32F values: the minimum on finite operands, NaN when
both operands are NaN.  (When exactly one operand is NaN, OpenCV's scalar
and SIMD code paths disagree on the result; the theorems below only ever
evaluate fmin on operands of equal definedness, where every such
semantics agrees with this definition.) -/
def fmin : FVal → FVal → FVal
  | FVal.fin x, FVal.fin y => FVal.fin (min x y)
  | _, _ => FVal.nan

/-- NaN-aware single-channel image. -/
abbrev Img1F : Type := ℕ → ℕ → FVal

/-- NaN-aware three-channel image. -/
abbrev Img3F : Type := ℕ → ℕ → FVal × FVal × FVal

/-- The erosion-window values (windowVals) in the NaN-aware embedding. -/
def windowValsF (h w k : ℕ) (img : Img1F) (i j : ℕ) : List FVal :=
  (List.range k).flatMap (fun (d : ℕ) =>
    (List.range k).filterMap (fun (e : ℕ) =>
      match clipIdx h ((i : ℤ) + (d : ℤ) - (k / 2 : ℕ)),
          clipIdx w ((j : ℤ) + (e : ℤ) - (k / 2 : ℕ)) with
      | some a, some b => some (img a b)
      | _, _ => none))

/-- cv::erode in the NaN-aware embedding. -/
def erodeF (h w k : ℕ) (img : Img1F) : Img1F :=
  fun i j => (windowValsF h w k img i j).foldl fmin (img i j)

/-- `Defogger::darkChannel` (defogger.cpp lines 63-73) in the NaN-aware
embedding. -/
def darkChannelF (h w : ℕ) (src : Img3F) (size : ℕ) : Img1F :=
  erodeF h w size (fun i j => fmin (fmin (src i j).1 (src i j).2.1) (src i j).2.2)

/-- `Defogger::transmissionEstimate` (defogger.cpp lines 97-109) in the
NaN-aware embedding: per channel source / A, dark channel of the result,
1 - omega * dark. -/
def transmissionEstimateF (h w : ℕ) (src : Img3F) (A : FVal × FVal × FVal) (size : ℕ)
    (omega : ℚ) : Img1F :=
  let tImgA : Img3F := fun i j =>
    (fdiv (src i j).1 A.1, fdiv (src i j).2.1 A.2.1, fdiv (src i j).2.2 A.2.2)
  fun i j => fsub (FVal.fin 1) (fmul (FVal.fin omega) (darkChannelF h w tImgA size i j))

/-- The outcome of `main` (main.cpp): either print usage and return 1
before any stage is constructed or started, or proceed to wire and start
the pipeline with the parsed paths and threshold. -/
inductive MainOutcome where
  | usageExit (code : Nat)
  | pipelineRun (modelPath videoPath : List Char) (threshold : ℚ)
deriving DecidableEq, Repr

/-- `main` (main.cpp lines 78-141) up to the start of the pipeline: parse
the arguments, validate them, and on failure print usage and return 1;
otherwise the stages are constructed, registered and started with the
parsed values. -/
def mainModel (fileExists : List Char → Bool) (stod : List Char → Option ℚ)
    (argv : List (List Char)) : MainOutcome :=
  let cmdArgs := parseArguments stod argv
  if validateArguments fileExists cmdArgs then
    MainOutcome.pipelineRun cmdArgs.modelPath cmdArgs.videoPath cmdArgs.confidenceThreshold
  else
    MainOutcome.usageExit 1

end CES

namespace CES

/- ------------------------------------------------------------------ -/
/- Helper lemmas.                                                      -/
/- ------------------------------------------------------------------ -/

/-- Posting a list of events appends them, in order, at the back of the
queue, and touches neither the handler table nor the running flag. -/
theorem foldl_postEvent (es : List Event) (s : DispatcherState) :
    (es.foldl EventDispatcher.postEvent s).eventQueue = s.eventQueue ++ es ∧
    (es.foldl EventDispatcher.postEvent s).handlerContainer = s.handlerContainer ∧
    (es.foldl EventDispatcher.postEvent s).running = s.running := by
  induction es generalizing s with
  | nil => simp
  | cons e rest ih =>
    have h := ih (EventDispatcher.postEvent s e)
    simpa [EventDispatcher.postEvent] using h

/-- Draining a queue in which every event type has a registered handler
produces the invocation trace that pairs each event, in queue order, with
its handler, and no diagnostics. -/
theorem drainEvents_all_handled (handlers : EventType → Option HandlerId) :
    ∀ es : List Event, (∀ e ∈ es, (handlers e.type).isSome = true) →
      drainEvents handlers es = (es.map (fun e => ((handlers e.type).getD 0, e)), 0)
  | [], _ => rfl
  | e :: rest, hreg => by
    obtain ⟨hid, hhid⟩ := Option.isSome_iff_exists.mp (hreg e (List.mem_cons_self e rest))
    have ih := drainEvents_all_handled handlers rest
      (fun x hx => hreg x (List.mem_cons_of_mem _ hx))
    simp [drainEvents, hhid, ih]

/-- Draining distributes over queue concatenation. -/
theorem drainEvents_append (handlers : EventType → Option HandlerId) (l1 l2 : List Event) :
    drainEvents handlers (l1 ++ l2)
      = ((drainEvents handlers l1).1 ++ (drainEvents handlers l2).1,
         (drainEvents handlers l1).2 + (drainEvents handlers l2).2) := by
  induction l1 with
  | nil => simp [drainEvents]
  | cons e rest ih =>
    cases hh : handlers e.type <;> (simp [drainEvents, hh, ih]; try omega)

/- ------------------------------------------------------------------ -/
/- Claim theorems: event bus and stages.                               -/
/- ------------------------------------------------------------------ -/

/-- C1: for every sequence of events posted to the bus whose types all
have registered handlers, draining the dispatch loop invokes exactly the
corresponding handler once per event, in the order the events were posted
(FIFO), with no event reordered or dropped and no diagnostics. -/
theorem dispatch_fifo_all_handled (s : DispatcherState) (es : List Event)
    (hq : s.eventQueue = [])
    (hreg : ∀ e ∈ es, (s.handlerContainer e.type).isSome = true) :
    drainEvents (es.foldl EventDispatcher.postEvent s).handlerContainer
        (es.foldl EventDispatcher.postEvent s).eventQueue
      = (es.map (fun e => ((s.handlerContainer e.type).getD 0, e)), 0) := by
  obtain ⟨hq', hhc, -⟩ := foldl_postEvent es s
  rw [hq', hhc, hq, List.nil_append]
  exact drainEvents_all_handled s.handlerContainer es hreg

/-- Handler table used by the C1 witness: the wiring of main.cpp, with
the Defogger (1), InferenceEngine (2) and GUIRenderer (3) handlers. -/
def handlersW : EventType → Option HandlerId := fun t =>
  match t with
  | EventType.FrameCaptureReady => some 1
  | EventType.FrameDefoggerReady => some 2
  | EventType.FrameDetectionReady => some 3
  | EventType.InitialState => none

/-- Dispatcher state used by the C1 witness. -/
def dispatcherW : DispatcherState :=
  { running := true, eventQueue := [], handlerContainer := handlersW, signaled := false }

/-- Events posted by the C1 witness. -/
def eventsW : List Event :=
  [⟨EventType.FrameCaptureReady, (1, 1)⟩, ⟨EventType.FrameDefoggerReady, (1, 2)⟩,
   ⟨EventType.FrameCaptureReady, (2, 2)⟩]

/-- Witness for C1 at a concrete dispatcher and a concrete sequence of
three events of registered types. -/
theorem dispatch_fifo_all_handled_witness :
    drainEvents (eventsW.foldl EventDispatcher.postEvent dispatcherW).handlerContainer
        (eventsW.foldl EventDispatcher.postEvent dispatcherW).eventQueue
      = (eventsW.map (fun e => ((dispatcherW.handlerContainer e.type).getD 0, e)), 0) :=
  dispatch_fifo_all_handled dispatcherW eventsW rfl (by decide)

/-- C2 counterexample: `shutdownEventloop` does not signal the queue
condition variable.  Starting from the freshly constructed dispatcher (no
pending notification), the claim — running set false, handler table
cleared, AND the loop woken — is false, because the notification state is
still unset after the call. -/
theorem shutdown_no_signal_counterexample :
    ¬ ((EventDispatcher.shutdownEventloop EventDispatcher.init).running = false ∧
       (∀ t, (EventDispatcher.shutdownEventloop EventDispatcher.init).handlerContainer t = none) ∧
       (EventDispatcher.shutdownEventloop EventDispatcher.init).signaled = true) := by
  intro hclaim
  exact absurd hclaim.2.2 (by decide)

/-- C2 amended: `shutdownEventloop` clears the handler table and sets the
running flag to false, but performs no notification on the condition
variable — the notification state is exactly what it was before the call
(a dispatch loop blocked on an empty queue is woken only by a later
postEvent or by the destructor's notify_all). -/
theorem shutdownEventloop_amended (s : DispatcherState) :
    (EventDispatcher.shutdownEventloop s).running = false ∧
    (∀ t, (EventDispatcher.shutdownEventloop s).handlerContainer t = none) ∧
    (EventDispatcher.shutdownEventloop s).signaled = s.signaled :=
  ⟨rfl, fun _ => rfl, rfl⟩

/-- C3 counterexample: with a stop requested (running = false) and a
non-empty queue, one iteration of the stage loop exits immediately,
popping nothing and posting nothing — contradicting the claim that the
loop exits only when stopping AND the queue is empty and otherwise pops
the oldest payload. -/
theorem stage_exit_nonempty_counterexample :
    (stageIteration EventType.FrameDefoggerReady id false [(1, 2)]).2.2 = true ∧
    (stageIteration EventType.FrameDefoggerReady id false [(1, 2)]).1 = [] ∧
    (stageIteration EventType.FrameDefoggerReady id false [(1, 2)]).2.1 = [(1, 2)] ∧
    [((1 : Frame), (2 : Frame))] ≠ ([] : List Payload) := by
  decide

/-- C3 amended: on a wakeup (queue non-empty or stop requested), an
iteration of the stage loop exits exactly when the stage is stopping —
regardless of queue contents, so pending payloads are abandoned on stop —
and only when the stage is running does it pop the oldest payload, run
the transform and post the stage's output event. -/
theorem stage_loop_amended (outType : EventType) (transform : Payload → Payload)
    (running : Bool) (q : List Payload) (hwake : q ≠ [] ∨ running = false) :
    ((stageIteration outType transform running q).2.2 = true ↔ running = false) ∧
    (∀ p rest, running = true → q = p :: rest →
      stageIteration outType transform running q = ([⟨outType, transform p⟩], rest, false)) := by
  constructor
  · cases running with
    | false => simp [stageIteration]
    | true =>
      rcases hwake with hq | hr
      · cases q with
        | nil => exact absurd rfl hq
        | cons p rest => simp [stageIteration]
      · exact absurd hr (by decide)
  · intro p rest hr hq
    subst hr
    subst hq
    simp [stageIteration]

/-- Witness for the amended C3 at a concrete running stage with one
queued payload. -/
theorem stage_loop_amended_witness :
    stageIteration EventType.FrameDefoggerReady id true [((5 : Frame), (6 : Frame))]
      = ([⟨EventType.FrameDefoggerReady, id ((5 : Frame), (6 : Frame))⟩], [], false) :=
  (stage_loop_amended EventType.FrameDefoggerReady id true [(5, 6)]
    (Or.inl (by decide))).2 (5, 6) [] rfl rfl

/-- C6: an event whose type has no registered handler produces one
diagnostic and no handler invocation, and the loop keeps draining the
events queued after it — the trace is exactly the trace of the
surrounding events. -/
theorem unhandled_event_dropped (handlers : EventType → Option HandlerId) (e : Event)
    (pre post : List Event) (hnone : handlers e.type = none) :
    (drainEvents handlers (pre ++ e :: post)).1
        = (drainEvents handlers pre).1 ++ (drainEvents handlers post).1 ∧
    (drainEvents handlers (pre ++ e :: post)).2
        = (drainEvents handlers pre).2 + (drainEvents handlers post).2 + 1 := by
  have happ := drainEvents_append handlers pre (e :: post)
  rw [happ]
  simp [drainEvents, hnone]
  omega

/-- Event with no registered handler used by the C6 witness. -/
def unhandledW : Event := ⟨EventType.InitialState, (9, 9)⟩

/-- Witness for C6: a concrete unhandled event queued between two handled
ones is skipped with one diagnostic while both neighbours are still
dispatched. -/
theorem unhandled_event_dropped_witness :
    (drainEvents handlersW ([⟨EventType.FrameCaptureReady, (1, 1)⟩] ++ unhandledW ::
          [⟨EventType.FrameDefoggerReady, (1, 2)⟩])).1
        = (drainEvents handlersW [⟨EventType.FrameCaptureReady, (1, 1)⟩]).1 ++
            (drainEvents handlersW [⟨EventType.FrameDefoggerReady, (1, 2)⟩]).1 ∧
    (drainEvents handlersW ([⟨EventType.FrameCaptureReady, (1, 1)⟩] ++ unhandledW ::
          [⟨EventType.FrameDefoggerReady, (1, 2)⟩])).2
        = (drainEvents handlersW [⟨EventType.FrameCaptureReady, (1, 1)⟩]).2 +
            (drainEvents handlersW [⟨EventType.FrameDefoggerReady, (1, 2)⟩]).2 + 1 :=
  unhandled_event_dropped handlersW unhandledW
    [⟨EventType.FrameCaptureReady, (1, 1)⟩] [⟨EventType.FrameDefoggerReady, (1, 2)⟩] rfl

/-- Detection row used by the C7 counterexample: its confidence equals
the threshold exactly. -/
def rowAtThreshold : DetRow := ⟨0, 0, 0, 0, [(1 : ℚ) / 2, 1 / 4]⟩

/-- C7 counterexample: a detection whose confidence equals the threshold
satisfies the claimed keep condition (confidence greater than or equal to
the threshold) yet is NOT kept — the filtered list is empty. -/
theorem detection_at_threshold_counterexample :
    (1 : ℚ) / 2 ≤ rowConfidence rowAtThreshold ∧
    keptDetections ((1 : ℚ) / 2) [rowAtThreshold] = [] := by
  constructor
  · norm_num [rowConfidence, rowAtThreshold]
  · norm_num [keptDetections, rowConfidence, rowAtThreshold, List.filter]

/-- C7 amended: a candidate detection is kept (drawn and recorded) if and
only if its confidence is STRICTLY greater than the configured threshold
(inference_engine.cpp line 58 uses confidence > confidenceThreshold). -/
theorem kept_iff_strictly_above (threshold : ℚ) (rows : List DetRow) (r : DetRow) :
    r ∈ keptDetections threshold rows ↔ r ∈ rows ∧ threshold < rowConfidence r := by
  simp [keptDetections, List.mem_filter]

/-- C9: `IProcessor::handleEvent` returns before touching the queue for
every event of type InitialState, whatever the stage's declared accepted
type is — in particular for the video-source stage, whose accepted type
is itself InitialState, so no payload is ever enqueued through
handleEvent for it. -/
theorem handleEvent_initial_state_noop :
    (∀ (accessibleType : EventType) (q : List Payload) (d : Payload),
        IProcessor.handleEvent accessibleType q ⟨EventType.InitialState, d⟩ = q) ∧
    (∀ (q : List Payload) (d : Payload),
        IProcessor.handleEvent VideoProcessor.getAccessibleType q
          ⟨EventType.InitialState, d⟩ = q) :=
  ⟨fun _ _ _ => rfl, fun _ _ => rfl⟩

/-- C10: whenever a running stage dequeues a payload, the Defogger posts
exactly one FrameDefoggerReady event and the InferenceEngine posts
exactly one FrameDetectionReady event — never zero — whatever the
transform produces (defogFn and drawFn are arbitrary, covering degenerate
defog outputs and the zero-kept-detections case). -/
theorem stage_posts_exactly_one (defogFn drawFn : Frame → Frame) (p : Payload)
    (rest : List Payload) :
    (Defogger.iteration defogFn true (p :: rest)).1
        = [⟨EventType.FrameDefoggerReady, (p.1, defogFn p.2)⟩] ∧
    (InferenceEngine.iteration drawFn true (p :: rest)).1
        = [⟨EventType.FrameDetectionReady, (p.1, drawFn p.2)⟩] :=
  ⟨rfl, rfl⟩


/- ------------------------------------------------------------------ -/
/- Claim theorems: command line (C8).                                  -/
/- ------------------------------------------------------------------ -/

/-- Argument vector used by the C8 theorems: valid-looking paths and an
unparsable threshold value. -/
def argvBadThreshold : List (List Char) :=
  [("--modelPath:models".toList), ("--videoPath:video.mp4".toList),
   ("--threshold:abc".toList)]

/-- A filesystem on which every path exists, used by the C8
counterexample. -/
def fileExistsAll : List Char → Bool := fun _ => true

/-- A stod that always throws invalid_argument, used by the C8
counterexample. -/
def stodFailAll : List Char → Option ℚ := fun _ => none

/-- C8 counterexample: with both paths valid (the filesystem reports them
existing) but an invalid threshold value ("abc", on which stod throws),
the program does NOT print usage and exit — it starts the pipeline with
the fallback threshold 0.3, contradicting the claim that an invalid
threshold value halts the program with a non-zero status. -/
theorem invalid_threshold_no_exit_counterexample :
    stodFailAll ("abc".toList) = none ∧
    mainModel fileExistsAll stodFailAll argvBadThreshold
      = MainOutcome.pipelineRun ("models".toList) ("video.mp4".toList) ((3 : ℚ) / 10) :=
  ⟨rfl, rfl⟩

/-- C8 amended: an invalid model or video path (neither a well-formed URL
nor an existing file) makes main print usage and return 1 before any
stage is constructed or started; with both paths valid the pipeline is
started with the parsed values; and an unparsable threshold does not
halt anything — it falls back to the default 0.3. -/
theorem main_validation_amended (fileExists : List Char → Bool)
    (stod : List Char → Option ℚ) (argv : List (List Char)) :
    (¬ (validatePath fileExists (parseArguments stod argv).modelPath = true ∧
          validatePath fileExists (parseArguments stod argv).videoPath = true) →
      mainModel fileExists stod argv = MainOutcome.usageExit 1) ∧
    (validatePath fileExists (parseArguments stod argv).modelPath = true →
      validatePath fileExists (parseArguments stod argv).videoPath = true →
      mainModel fileExists stod argv
        = MainOutcome.pipelineRun (parseArguments stod argv).modelPath
            (parseArguments stod argv).videoPath
            (parseArguments stod argv).confidenceThreshold) ∧
    (∀ v, argLookup argv ("--threshold".toList) = some v → stod v = none →
      (parseArguments stod argv).confidenceThreshold = (3 : ℚ) / 10) := by
  refine ⟨?_, ?_, ?_⟩
  · intro hbad
    rw [mainModel]
    rw [if_neg]
    intro hval
    rw [validateArguments, Bool.and_eq_true] at hval
    exact hbad hval
  · intro hm hv
    rw [mainModel, if_pos]
    rw [validateArguments, Bool.and_eq_true]
    exact ⟨hm, hv⟩
  · intro v hv hstod
    rw [parseArguments]
    simp only [hv, hstod]

/-- Witness for the amended C8: with a filesystem on which nothing exists
and plain path arguments (not URLs), main exits with usage and status 1;
and the bad-threshold fallback is 0.3. -/
theorem main_validation_amended_witness :
    mainModel (fun _ => false) stodFailAll argvBadThreshold = MainOutcome.usageExit 1 ∧
    (parseArguments stodFailAll argvBadThreshold).confidenceThreshold = (3 : ℚ) / 10 :=
  ⟨(main_validation_amended (fun _ => false) stodFailAll argvBadThreshold).1 (by decide),
   (main_validation_amended (fun _ => false) stodFailAll argvBadThreshold).2.2
     ("abc".toList) (by decide) rfl⟩


/- ------------------------------------------------------------------ -/
/- Claim theorems: atmospheric light (C5).                             -/
/- ------------------------------------------------------------------ -/

/-- argsort returns a permutation of the index range. -/
theorem argsort_perm (v : List ℚ) : List.Perm (argsort v) (List.range v.length) :=
  List.perm_insertionSort _ _

/-- argsort has the same length as its input. -/
theorem argsort_length (v : List ℚ) : (argsort v).length = v.length := by
  rw [(argsort_perm v).length_eq, List.length_range]

/-- Every index produced by argsort is a valid index into the input. -/
theorem argsort_mem_lt (v : List ℚ) (t : ℕ) (ht : t ∈ argsort v) : t < v.length :=
  List.mem_range.mp ((argsort_perm v).mem_iff.mp ht)

/-- argsort sorts the indices so that the values are ascending. -/
theorem argsort_sorted (v : List ℚ) :
    (argsort v).Sorted (fun i j => v.getD i 0 ≤ v.getD j 0) := by
  haveI : IsTotal ℕ (fun i j => v.getD i 0 ≤ v.getD j 0) := ⟨fun _ _ => le_total _ _⟩
  haveI : IsTrans ℕ (fun i j => v.getD i 0 ≤ v.getD j 0) := ⟨fun _ _ _ h1 h2 => le_trans h1 h2⟩
  exact List.sorted_insertionSort _ _

/-- flatten1 of an h-by-w image has h * w entries. -/
theorem flatten1_length (h w : ℕ) (img : Img1) : (flatten1 h w img).length = h * w := by
  simp [flatten1]

/-- C5: the atmospheric-light estimate is the 3-component average of the
source pixels over the max(total_pixels/1000, 1) pixels with the
brightest dark-channel values: the selected index set has exactly that
size, every selected pixel's dark-channel value dominates every
unselected one's, and each component of A is the average of the
corresponding source channel over exactly that set. -/
theorem atmLight_top_brightest (h w : ℕ) (hh : 0 < h) (hw : 0 < w) (src : Img3)
    (dark : Img1) :
    ((argsort (flatten1 h w dark)).drop (h * w - max (h * w / 1000) 1)).length
        = max (h * w / 1000) 1 ∧
    (∀ i ∈ (argsort (flatten1 h w dark)).drop (h * w - max (h * w / 1000) 1),
      ∀ j < h * w, j ∉ (argsort (flatten1 h w dark)).drop (h * w - max (h * w / 1000) 1) →
        (flatten1 h w dark).getD j 0 ≤ (flatten1 h w dark).getD i 0) ∧
    atmLight h w src dark
      = ((((argsort (flatten1 h w dark)).drop (h * w - max (h * w / 1000) 1)).map
            (fun t => ((flatten3 h w src).getD t (0, 0, 0)).1)).sum / (max (h * w / 1000) 1),
         (((argsort (flatten1 h w dark)).drop (h * w - max (h * w / 1000) 1)).map
            (fun t => ((flatten3 h w src).getD t (0, 0, 0)).2.1)).sum / (max (h * w / 1000) 1),
         (((argsort (flatten1 h w dark)).drop (h * w - max (h * w / 1000) 1)).map
            (fun t => ((flatten3 h w src).getD t (0, 0, 0)).2.2)).sum / (max (h * w / 1000) 1)) := by
  have hn : 0 < h * w := Nat.mul_pos hh hw
  have hnumpx : max (h * w / 1000) 1 ≤ h * w := max_le (Nat.div_le_self _ _) hn
  have hlen : (argsort (flatten1 h w dark)).length = h * w := by
    rw [argsort_length, flatten1_length]
  refine ⟨?_, ?_, rfl⟩
  · rw [List.length_drop, hlen]
    omega
  · intro i hi j hj hj'
    have hjmem : j ∈ argsort (flatten1 h w dark) := by
      rw [(argsort_perm (flatten1 h w dark)).mem_iff, flatten1_length, List.mem_range]
      exact hj
    have hsplit := List.take_append_drop (h * w - max (h * w / 1000) 1)
      (argsort (flatten1 h w dark))
    have hjboth : j ∈ (argsort (flatten1 h w dark)).take (h * w - max (h * w / 1000) 1) ++
        (argsort (flatten1 h w dark)).drop (h * w - max (h * w / 1000) 1) := by
      rw [hsplit]
      exact hjmem
    have hjtake : j ∈ (argsort (flatten1 h w dark)).take (h * w - max (h * w / 1000) 1) := by
      rcases List.mem_append.mp hjboth with hja | hjb
      · exact hja
      · exact absurd hjb hj'
    exact (argsort_sorted (flatten1 h w dark)).rel_of_mem_take_of_mem_drop hjtake hi

/-- Source image for the C5 witness. -/
def srcW5 : Img3 := fun i j => ((i : ℚ) + 1, (j : ℚ) + 2, 3)

/-- Dark channel for the C5 witness. -/
def darkW5 : Img1 := fun i j => (i : ℚ) * 2 + j

/-- Witness for C5 on a concrete 2-by-2 source and dark channel. -/
theorem atmLight_top_brightest_witness :
    ((argsort (flatten1 2 2 darkW5)).drop (2 * 2 - max (2 * 2 / 1000) 1)).length
        = max (2 * 2 / 1000) 1 ∧
    (∀ i ∈ (argsort (flatten1 2 2 darkW5)).drop (2 * 2 - max (2 * 2 / 1000) 1),
      ∀ j < 2 * 2, j ∉ (argsort (flatten1 2 2 darkW5)).drop (2 * 2 - max (2 * 2 / 1000) 1) →
        (flatten1 2 2 darkW5).getD j 0 ≤ (flatten1 2 2 darkW5).getD i 0) ∧
    atmLight 2 2 srcW5 darkW5
      = ((((argsort (flatten1 2 2 darkW5)).drop (2 * 2 - max (2 * 2 / 1000) 1)).map
            (fun t => ((flatten3 2 2 srcW5).getD t (0, 0, 0)).1)).sum / ((max (2 * 2 / 1000) 1 : ℕ) : ℚ),
         (((argsort (flatten1 2 2 darkW5)).drop (2 * 2 - max (2 * 2 / 1000) 1)).map
            (fun t => ((flatten3 2 2 srcW5).getD t (0, 0, 0)).2.1)).sum / ((max (2 * 2 / 1000) 1 : ℕ) : ℚ),
         (((argsort (flatten1 2 2 darkW5)).drop (2 * 2 - max (2 * 2 / 1000) 1)).map
            (fun t => ((flatten3 2 2 srcW5).getD t (0, 0, 0)).2.2)).sum / ((max (2 * 2 / 1000) 1 : ℕ) : ℚ)) :=
  atmLight_top_brightest 2 2 (by decide) (by decide) srcW5 darkW5


/- ------------------------------------------------------------------ -/
/- Claim theorems: defog on a uniform frame (C4).                      -/
/- ------------------------------------------------------------------ -/

/-- clipIdx of an in-image natural coordinate is that coordinate. -/
theorem clipIdx_natCast (n t : ℕ) :
    clipIdx n (t : ℤ) = if t < n then some t else none := by
  rw [clipIdx]
  by_cases hlt : t < n
  · rw [if_pos ⟨Int.natCast_nonneg t, by exact_mod_cast hlt⟩, if_pos hlt, Int.toNat_natCast]
  · rw [if_neg, if_neg hlt]
    intro hc
    exact hlt (by exact_mod_cast hc.2)

/-- The 1-by-1 erosion window holds exactly the anchor pixel (when it is
inside the image). -/
theorem windowVals_one (h w : ℕ) (img : Img1) (i j : ℕ) :
    windowVals h w 1 img i j = if i < h ∧ j < w then [img i j] else [] := by
  have key : ∀ n m : ℕ, clipIdx n ((m : ℤ) + ((0 : ℕ) : ℤ) - ((1 / 2 : ℕ) : ℤ))
      = if m < n then some m else none := by
    intro n m
    have hm : ((m : ℤ) + ((0 : ℕ) : ℤ) - ((1 / 2 : ℕ) : ℤ)) = ((m : ℕ) : ℤ) := by norm_num
    rw [hm, clipIdx_natCast]
  rw [windowVals, show List.range 1 = [0] from rfl, List.flatMap_cons, List.flatMap_nil,
    List.append_nil, List.filterMap_cons, List.filterMap_nil, key, key]
  by_cases hi : i < h <;> by_cases hj : j < w <;> simp [hi, hj]

/-- Erosion with the 1-by-1 structuring element is the identity. -/
theorem erode_one (h w : ℕ) (img : Img1) (i j : ℕ) : erode h w 1 img i j = img i j := by
  simp only [erode, windowVals_one]
  by_cases hij : i < h ∧ j < w <;> simp [hij]

/-- A box filter of any nonzero window size maps a constant image to that
constant. -/
theorem boxFilter_const (h w k : ℕ) (hk : k ≠ 0) (img : Img1) (c : ℚ)
    (himg : ∀ i j, img i j = c) : ∀ i j, boxFilter h w k img i j = c := by
  intro i j
  have hkq : (k : ℚ) ≠ 0 := Nat.cast_ne_zero.mpr hk
  simp only [boxFilter, himg]
  rw [Finset.sum_const, Finset.sum_const, Finset.card_range, nsmul_eq_mul, nsmul_eq_mul]
  field_simp
  ring

/-- A list all of whose entries equal c sums to its length times c. -/
theorem list_sum_of_all_eq (l : List ℚ) (c : ℚ) (hl : ∀ x ∈ l, x = c) :
    l.sum = l.length * c := by
  induction l with
  | nil => simp
  | cons a t ih =>
    rw [List.sum_cons, hl a (List.mem_cons_self a t),
      ih (fun x hx => hl x (List.mem_cons_of_mem _ hx)), List.length_cons]
    push_cast
    ring

/-- Reading the flattening of a source at a valid flat index yields the
corresponding pixel. -/
theorem flatten3_getD (h w : ℕ) (src : Img3) (t : ℕ) (ht : t < h * w) :
    (flatten3 h w src).getD t (0, 0, 0) = src (t / w) (t % w) := by
  rw [flatten3, List.getD_eq_getElem?_getD, List.getElem?_map, List.getElem?_range ht]
  rfl

/-- The atmospheric-light estimate of a constant source image is that
constant, whatever the dark channel is: the selected brightest pixels are
valid pixel indices and every source pixel has the same value. -/
theorem atmLight_const (h w : ℕ) (hn : 0 < h * w) (src : Img3) (dark : Img1)
    (c1 c2 c3 : ℚ) (hsrc : ∀ i j, src i j = (c1, c2, c3)) :
    atmLight h w src dark = (c1, c2, c3) := by
  have hnumpx : max (h * w / 1000) 1 ≤ h * w := max_le (Nat.div_le_self _ _) hn
  have hlen : ((argsort (flatten1 h w dark)).drop (h * w - max (h * w / 1000) 1)).length
      = max (h * w / 1000) 1 := by
    rw [List.length_drop, argsort_length, flatten1_length]
    omega
  have hmemlt : ∀ t ∈ (argsort (flatten1 h w dark)).drop (h * w - max (h * w / 1000) 1),
      t < h * w := by
    intro t ht
    have := argsort_mem_lt _ t (List.mem_of_mem_drop ht)
    rwa [flatten1_length] at this
  have hnum0 : ((max (h * w / 1000) 1 : ℕ) : ℚ) ≠ 0 := Nat.cast_ne_zero.mpr (by omega)
  have hcomp : ∀ (f : ℚ × ℚ × ℚ → ℚ),
      (((argsort (flatten1 h w dark)).drop (h * w - max (h * w / 1000) 1)).map
          (fun t => f ((flatten3 h w src).getD t (0, 0, 0)))).sum
        = ((max (h * w / 1000) 1 : ℕ) : ℚ) * f (c1, c2, c3) := by
    intro f
    rw [list_sum_of_all_eq _ (f (c1, c2, c3))]
    · rw [List.length_map, hlen]
    · intro x hx
      obtain ⟨t, ht, rfl⟩ := List.mem_map.mp hx
      rw [flatten3_getD h w src t (hmemlt t ht), hsrc]
  simp only [atmLight]
  rw [hcomp (fun p => p.1), hcomp (fun p => p.2.1), hcomp (fun p => p.2.2)]
  rw [mul_div_cancel_left₀ _ hnum0, mul_div_cancel_left₀ _ hnum0,
    mul_div_cancel_left₀ _ hnum0]

/-- The guided filter of a constant signal under a constant guide is that
constant signal: the covariance and variance vanish, so a = 0 and
b equals the signal. -/
theorem guidedfilter_const (h w : ℕ) (p t : Img1) (γ c : ℚ) (r : ℕ) (hr : r ≠ 0)
    (eps : ℚ) (hp : ∀ i j, p i j = γ) (ht : ∀ i j, t i j = c) :
    ∀ i j, guidedfilter h w p t r eps i j = c := by
  intro i j
  have hmI := boxFilter_const h w r hr p γ hp
  have hmT := boxFilter_const h w r hr t c ht
  have hmIT := boxFilter_const h w r hr (fun a d => p a d * t a d) (γ * c)
    (fun a d => by
      show p a d * t a d = γ * c
      rw [hp, ht])
  have hmII := boxFilter_const h w r hr (fun a d => p a d * p a d) (γ * γ)
    (fun a d => by
      show p a d * p a d = γ * γ
      rw [hp])
  have h0 := boxFilter_const h w r hr (fun _ _ => (0 : ℚ)) 0 (fun _ _ => rfl)
  have hc := boxFilter_const h w r hr (fun _ _ => c) c (fun _ _ => rfl)
  simp only [guidedfilter, hmIT, hmI, hmT, hmII, sub_self, zero_div, zero_mul, sub_zero]
  rw [h0, hc, hp, zero_mul, zero_add]

/-- Rescaling an 8-bit channel value to [0,1] and back through the
saturating 8-bit conversion is the identity. -/
theorem saturate8_rescale (n : ℕ) (hn : n ≤ 255) :
    saturate8 (255 * ((n : ℚ) / 255)) = (n : ℚ) := by
  have h255 : (255 : ℚ) ≠ 0 := by norm_num
  rw [mul_div_cancel₀ _ h255, saturate8, round_natCast, Int.cast_natCast,
    min_eq_right (by exact_mod_cast hn : (n : ℚ) ≤ 255),
    max_eq_right (Nat.cast_nonneg n)]

/-- All-zero (black) spatially uniform frame, the C4 counterexample
input. -/
def srcZeroW : Img3 := fun _ _ => ((0 : ℚ), 0, 0)

/-- C4 counterexample: on the all-zero uniform frame — a spatially
uniform input the claim quantifies over — the defog pipeline does not
compute the claimed finite identity chain.  After normalization the frame
is uniformly (0, 0, 0), so the atmospheric-light estimate is (0, 0, 0)
(first conjunct, over the exact embedding, whose operations are all
finite up to this point); the transmission estimate then divides each
zero channel by the zero component of A, i.e. computes 0/0 = NaN, and
1 - omega * NaN is NaN (second conjunct, over the NaN-aware embedding,
forced by IEEE semantics alone since every fmin there sees two NaN
operands).  The subsequent refinement, recovery and 8-bit conversion of
a NaN transmission are implementation-defined (NaN handling of cv::max
and cvRound), so the output is not the input frame as claimed. -/
theorem defog_zero_frame_counterexample :
    atmLight 1 1
        (fun i j => ((srcZeroW i j).1 / 255, (srcZeroW i j).2.1 / 255, (srcZeroW i j).2.2 / 255))
        (darkChannel 1 1
          (fun i j => ((srcZeroW i j).1 / 255, (srcZeroW i j).2.1 / 255, (srcZeroW i j).2.2 / 255)) 1)
      = ((0 : ℚ), (0 : ℚ), (0 : ℚ)) ∧
    transmissionEstimateF 1 1 (fun _ _ => (FVal.fin 0, FVal.fin 0, FVal.fin 0))
        (FVal.fin 0, FVal.fin 0, FVal.fin 0) 1 ((19 : ℚ) / 20) 0 0 = FVal.nan :=
  ⟨atmLight_const 1 1 (by norm_num) _ _ 0 0 0 (fun i j => by norm_num [srcZeroW]), rfl⟩

/-- C4 amended: defog with window_size = 1, omega = 0.95 and
min_transmission = 0.1 maps a spatially uniform 8-bit frame whose channel
values are all NONZERO (the same triple of integers in (0, 255] at every
pixel) to itself: the atmospheric light equals the normalized pixel, the
recovery step returns the normalized pixel unchanged, and the rescaling
restores the original 8-bit values.  The nonzero hypotheses delimit the
domain on which the exact-rational embedding is faithful to the float
code — every float division then has a nonzero divisor; at a zero-valued
channel the float pipeline computes 0/0 = NaN instead (see
defog_zero_frame_counterexample) and the identity is not established. -/
theorem defog_uniform_identity (h w : ℕ) (hh : 0 < h) (hw : 0 < w) (b g r : ℕ)
    (_hb0 : 0 < b) (hb1 : b ≤ 255) (_hg0 : 0 < g) (hg1 : g ≤ 255)
    (_hr0 : 0 < r) (hr1 : r ≤ 255) (src : Img3)
    (hsrc : ∀ i j, src i j = ((b : ℚ), (g : ℚ), (r : ℚ))) :
    defog h w src 1 ((19 : ℚ) / 20) ((1 : ℚ) / 10) = src := by
  have hn : 0 < h * w := Nat.mul_pos hh hw
  have h_tI : ∀ a c : ℕ,
      (fun i j => ((src i j).1 / 255, (src i j).2.1 / 255, (src i j).2.2 / 255) : Img3) a c
        = ((b : ℚ) / 255, (g : ℚ) / 255, (r : ℚ) / 255) := by
    intro a c
    simp only [hsrc]
  have hA := atmLight_const h w hn
    (fun i j => ((src i j).1 / 255, (src i j).2.1 / 255, (src i j).2.2 / 255))
    (darkChannel h w
      (fun i j => ((src i j).1 / 255, (src i j).2.1 / 255, (src i j).2.2 / 255)) 1)
    ((b : ℚ) / 255) ((g : ℚ) / 255) ((r : ℚ) / 255) h_tI
  have h_Rec : ∀ (tr : Img1) (a c : ℕ),
      recover (fun i j => ((src i j).1 / 255, (src i j).2.1 / 255, (src i j).2.2 / 255)) tr
          ((b : ℚ) / 255, (g : ℚ) / 255, (r : ℚ) / 255) ((1 : ℚ) / 10) a c
        = ((b : ℚ) / 255, (g : ℚ) / 255, (r : ℚ) / 255) := by
    intro tr a c
    simp only [recover, hsrc, sub_self, zero_div, zero_add]
  funext i j
  simp only [defog]
  rw [hA, h_Rec]
  rw [hsrc i j]
  simp only []
  rw [saturate8_rescale b hb1, saturate8_rescale g hg1, saturate8_rescale r hr1]

/-- Uniform source frame for the C4 witness. -/
def srcUniformW : Img3 := fun _ _ => ((100 : ℚ), 150, 200)

/-- Witness for C4 on a concrete uniform 1-by-1 frame with pixel
(100, 150, 200). -/
theorem defog_uniform_identity_witness :
    defog 1 1 srcUniformW 1 ((19 : ℚ) / 20) ((1 : ℚ) / 10) = srcUniformW :=
  defog_uniform_identity 1 1 (by decide) (by decide) 100 150 200 (by decide) (by decide)
    (by decide) (by decide) (by decide) (by decide) srcUniformW
    (fun _ _ => by norm_num [srcUniformW])

end CES
